import Mathlib

/-!
Shallow embedding of the context-assembly engine of `gemini_agent/agent.py`
(classes `HomeAssistantClient`, `JarvisBrain`, `PersistentMemory`).

Modelling conventions:
* timestamps are absolute UTC instants in whole seconds (`Int`); the platform's
  local timezone is a fixed offset in seconds, so `datetime.astimezone`
  followed by `strftime("%H:%M")` becomes `fmtHM`;
* a Python string's `in` test becomes `strContains` (a substring test on the
  underlying character lists);
* Python's `str.lower()` becomes `pyLower`, a character-wise lowering; the two
  differ only on non-ASCII capitals, and every concrete input used below is
  already lower-case there;
* remote HTTP responses are inputs of the functions that consume them
  (`HttpResponse`), carrying a status code and decoded body, or a transport
  failure (timeout / connection error, i.e. a raised `requests` exception).
-/

/-- Python `needle in hay` on strings: substring containment. -/
def strContains (hay needle : String) : Bool :=
  decide (needle.data <:+: hay.data)

/-- Python `str.lower()`, character-wise. -/
def pyLower (s : String) : String :=
  ⟨s.data.map Char.toLower⟩

/-- Python `str.startswith(p)`. -/
def strStartsWith (s p : String) : Bool :=
  p.data.isPrefixOf s.data

/-- Python `str.split()` (no argument): split on whitespace runs, no empty
tokens. `acc` holds the chars of the current token, reversed. -/
def pySplitAux : List Char → List Char → List String
  | [], acc => if acc.isEmpty then [] else [⟨acc.reverse⟩]
  | c :: cs, acc =>
    if c.isWhitespace then
      if acc.isEmpty then pySplitAux cs [] else ⟨acc.reverse⟩ :: pySplitAux cs []
    else pySplitAux cs (c :: acc)

/-- Python `str.split()` on a string. -/
def pySplit (s : String) : List String :=
  pySplitAux s.data []

/-- One element of the `GET /states` response: current state of one entity. -/
structure EntityState where
  entity_id : String
  state : String
  attributes : List (String × String)
deriving DecidableEq, Repr

/-- `attrs.get(key, '')` with the Python `str(...)` coercion applied. -/
def attrGet (attrs : List (String × String)) (k : String) : String :=
  match attrs.find? (fun p => p.1 == k) with
  | some p => p.2
  | none => ""

/-- The keyword table of `_identify_entities` (Greek stem → type markers). -/
def keywords : List (String × List String) :=
  [("θερμοκρασ", ["temperature", "climate", "temp"]),
   ("θερμανσ", ["climate", "heating"]),
   ("σαλον", ["salon", "living"]),
   ("δωματι", ["room", "bed", "child"]),
   ("φως", ["light"]),
   ("καταναλωσ", ["energy", "power", "cost"])]

/-- `found_types`: concatenation of the marker lists of every keyword stem
occurring in the lower-cased utterance, in table order. -/
def foundTypes (user_input : String) : List String :=
  (keywords.filter (fun kv => strContains (pyLower user_input) kv.1)).flatMap
    (·.2)

/-- `user_filter_words`: whitespace tokens of the lower-cased utterance that
are longer than 3 characters. -/
def filterWords (user_input : String) : List String :=
  (pySplit (pyLower user_input)).filter (fun w => 3 < w.data.length)

/-- The category signal of `_identify_entities`: some found type occurs in the
entity's `device_class` or (lower-cased) id, or the id is in the `climate`
domain. -/
def categoryFires (ft : List String) (s : EntityState) : Bool :=
  let eid := pyLower s.entity_id
  let dev_class := attrGet s.attributes "device_class"
  ft.any (fun t => strContains dev_class t || strContains eid t) ||
    strStartsWith eid "climate."

/-- The lexical signal of `_identify_entities`: some long utterance word occurs
in the (lower-cased) entity id or friendly name. -/
def lexicalFires (fw : List String) (s : EntityState) : Bool :=
  let eid := pyLower s.entity_id
  let friendly := pyLower (attrGet s.attributes "friendly_name")
  fw.any (fun w => strContains eid w || strContains friendly w)

/-- The per-entity decision of `_identify_entities`: with both keyword types
and long words present the code requires BOTH signals (`is_match and
name_match`); with exactly one of the two present, that one alone. -/
def entityMatch (ft fw : List String) (s : EntityState) : Bool :=
  let is_match := !ft.isEmpty && categoryFires ft s
  let name_match := lexicalFires fw s
  if !ft.isEmpty && !fw.isEmpty then is_match && name_match
  else if !ft.isEmpty then is_match
  else if !fw.isEmpty then name_match
  else false

/-- `JarvisBrain._identify_entities`, with the `GET /states` body as input:
ids of matching entities in snapshot order, truncated to 15. -/
def identify_entities (user_input : String) (all_states : List EntityState) :
    List String :=
  ((all_states.filter
      (entityMatch (foundTypes user_input) (filterWords user_input))).map
    (·.entity_id)).take 15

/-- `JarvisBrain._detect_time_intent`: (start instant, mode string).
`now` is the current local instant; `astimezone(pytz.utc)` does not move the
instant, so the returned UTC start equals the computed local start. -/
def detect_time_intent (user_input : String) (now : Int) : Int × String :=
  let lower := pyLower user_input
  if strContains lower "χθες" || strContains lower "yesterday" then
    (now - 24 * 3600, "history_point")
  else if strContains lower "προχθές" then
    (now - 48 * 3600, "history_point")
  else if strContains lower "ώρα" &&
      (strContains lower "τελευταία" || strContains lower "last") then
    (now - 3600, "history_range")
  else
    (now - 24 * 3600, "recent")

/-- One decoded element of a history sub-array: one raw sample of one entity.
`last_changed` is the parsed (timezone-aware) timestamp as a UTC instant. -/
structure HistoryEntry where
  entity_id : String
  state : String
  attributes : List (String × String)
  last_changed : Int
deriving DecidableEq, Repr

/-- A remote HTTP response as seen by the caller: decoded status and body, or
a raised transport exception (timeout, connection error). -/
inductive HttpResponse where
  | response (code : Nat) (body : List (List HistoryEntry))
  | failure
deriving DecidableEq

/-- `HomeAssistantClient.get_history`: result list together with the number of
requests issued to the secondary (internal) endpoint. The primary request's
outcome is `primary`; if it comes back 401 or 404 the secondary endpoint is
consulted (outcome `secondary`). Any raised exception — including one raised
by the secondary request — is caught and yields `[]`. -/
def get_history (primary secondary : HttpResponse) :
    List (List HistoryEntry) × Nat :=
  match primary with
  | HttpResponse.failure => ([], 0)
  | HttpResponse.response code body =>
    if code = 200 then (body, 0)
    else if code = 401 ∨ code = 404 then
      match secondary with
      | HttpResponse.failure => ([], 1)
      | HttpResponse.response c2 b2 => (if c2 = 200 then b2 else [], 1)
    else ([], 0)

/-- One decimal digit character. -/
def digitChar (n : Nat) : Char :=
  Char.ofNat (48 + n)

/-- Two-digit zero-padded rendering, as `strftime` produces for `%H`/`%M`. -/
def pad2 (n : Nat) : String :=
  ⟨[digitChar (n / 10), digitChar (n % 10)]⟩

/-- `ts_dt.astimezone(tz).strftime("%H:%M")` for a fixed-offset timezone of
`tz` seconds: clock time of day of the local instant. -/
def fmtHM (tz t : Int) : String :=
  let secOfDay := ((t + tz) % 86400).toNat
  pad2 (secOfDay / 3600) ++ ":" ++ pad2 (secOfDay % 3600 / 60)

/-- The lines `process` appends for one history entry: in `history_point` mode
an entry is rendered only when its timestamp is strictly within 3600 seconds
of the window start; in every other mode each entry is rendered. `eid` is the
entity id of the first entry of the surrounding sub-array. -/
def entryLines (eid mode : String) (start tz : Int) (e : HistoryEntry) :
    List String :=
  if mode = "history_point" then
    if (e.last_changed - start).natAbs < 3600 then
      [eid ++ " at " ++ fmtHM tz e.last_changed ++ ": " ++ e.state]
    else []
  else
    ["[" ++ fmtHM tz e.last_changed ++ "] " ++ eid ++ "=" ++ e.state]

/-- The lines `process` appends for one history sub-array (`item`): empty
sub-arrays are skipped, otherwise each entry contributes via `entryLines`
under the entity id of the sub-array's first entry. -/
def itemLines (mode : String) (start tz : Int) (item : List HistoryEntry) :
    List String :=
  match item with
  | [] => []
  | f :: _ => item.flatMap (entryLines f.entity_id mode start tz)

/-- `parsed_lines` of `JarvisBrain.process`: concatenation over all
sub-arrays of the fetched history. -/
def parseHistory (raw : List (List HistoryEntry)) (mode : String)
    (start tz : Int) : List String :=
  raw.flatMap (itemLines mode start tz)

/-- Python `l[-n:]`: the last `n` elements. -/
def lastN (n : Nat) (l : List α) : List α :=
  l.drop (l.length - n)

/-- The "no data" sentinel of `JarvisBrain.process`. -/
def sentinel : String :=
  "No relevant history data found."

/-- `history_text` as computed by `JarvisBrain.process`: the sentinel when no
entity was selected (no fetch happens) or when no line survived parsing;
otherwise the last 50 parsed lines joined by newlines. -/
def history_text (entities : List String) (raw : List (List HistoryEntry))
    (mode : String) (start tz : Int) : String :=
  if entities.isEmpty then sentinel
  else
    let pl := parseHistory raw mode start tz
    if pl.isEmpty then sentinel
    else String.intercalate "\n" (lastN 50 pl)

/-- `PersistentMemory`: the `conversation` table as an insertion-ordered list
of (role, content) rows. -/
structure Memory where
  msgs : List (String × String)
deriving DecidableEq

/-- `PersistentMemory.add_message`: appends one row. -/
def add_message (m : Memory) (role content : String) : Memory :=
  ⟨m.msgs ++ [(role, content)]⟩

/-- `PersistentMemory.get_context`: the most recent `limit` rows in
chronological order. -/
def get_context (m : Memory) (limit : Nat) : List (String × String) :=
  lastN limit m.msgs

/-- The LLM call: generated text, or a raised exception with message. -/
inductive LLMResult where
  | success (text : String)
  | failure (err : String)

/-- The fixed instruction block of the prompt built by `process`. -/
def instructions : String :=
  "INSTRUCTIONS:\n1. You are a Professional Home Assistant Analyst.\n" ++
  "2. Look at HISTORICAL DATA. If user asks Yesterday same time, look for " ++
  "timestamps in data matching yesterdays date/time.\n" ++
  "3. Do NOT generalize. Use the specific values found.\n" ++
  "4. If data shows temperature 20.5 at 10:00 yesterday, say Yesterday at " ++
  "10:00 it was 20.5 C.\n5. Reply in Greek."

/-- `JarvisBrain.process`. Inputs stand for the environment: `llm` is the
model, `fetch` is `fetch_state` per entity id, `all_states` is the
`GET /states` body, `primary`/`secondary` are the two history endpoints'
responses, `nowStr`/`tzName` are the rendered current local time and timezone
name of the prompt header. Returns the memory after the turn and the reply. -/
def process (llm : String → LLMResult) (fetch : String → String)
    (mem : Memory) (user_input : String) (all_states : List EntityState)
    (primary secondary : HttpResponse) (now tz : Int)
    (nowStr tzName : String) : Memory × String :=
  let mem1 := add_message mem "user" user_input
  let sm := detect_time_intent user_input now
  let entities := identify_entities user_input all_states
  let htext := history_text entities (get_history primary secondary).1 sm.2
    sm.1 tz
  let current_states :=
    String.join (entities.map (fun eid => eid ++ ": " ++ fetch eid ++ "\n"))
  let memory_str := String.intercalate "\n"
    ((get_context mem1 10).map (fun m => m.1 ++ ": " ++ m.2))
  let prompt :=
    "Current Time (User TZ): " ++ nowStr ++ "\n" ++
    "User Location Timezone: " ++ tzName ++ "\n" ++
    "--- CONVERSATION MEMORY ---\n" ++ memory_str ++ "\n" ++
    "--- HISTORICAL DATA (Relative to Request) ---\n" ++ htext ++ "\n" ++
    "--- CURRENT LIVE VALUES ---\n" ++ current_states ++ "\n" ++
    "--- USER QUESTION ---\n" ++ user_input ++ "\n\n" ++ instructions
  match llm prompt with
  | LLMResult.success t =>
    let reply := t.replace "*" ""
    (add_message mem1 "assistant" reply, reply)
  | LLMResult.failure e => (mem1, "Error generating response: " ++ e)

/-! ## General lemmas about the embedded operations -/

/-- `l[-n:]` never has more than `n` elements. -/
theorem lastN_length_le (n : Nat) (l : List α) : (lastN n l).length ≤ n := by
  simp [lastN]
  omega

/-- The element just appended is always among the last `n`, for `n > 0`. -/
theorem mem_lastN_concat (n : Nat) (hn : 0 < n) (l : List α) (x : α) :
    x ∈ lastN n (l ++ [x]) := by
  unfold lastN
  rw [List.length_append, List.drop_append_of_le_length (by simp; omega)]
  exact List.mem_append_right _ (List.mem_singleton_self x)

/-- In any mode other than `history_point`, every entry is rendered as one
range-format line. -/
theorem entryLines_range (eid mode : String) (start tz : Int)
    (e : HistoryEntry) (h : mode ≠ "history_point") :
    entryLines eid mode start tz e =
      ["[" ++ fmtHM tz e.last_changed ++ "] " ++ eid ++ "=" ++ e.state] := by
  simp [entryLines, h]

/-- In `history_point` mode the rendered entries of a sub-array are exactly
those strictly within 3600 seconds of the window start. -/
theorem point_filter (eid : String) (start tz : Int) (l : List HistoryEntry) :
    l.flatMap (entryLines eid "history_point" start tz) =
      (l.filter (fun e => decide ((e.last_changed - start).natAbs < 3600))).map
        (fun e => eid ++ " at " ++ fmtHM tz e.last_changed ++ ": " ++
          e.state) := by
  induction l with
  | nil => rfl
  | cons e rest ih =>
    by_cases h : (e.last_changed - start).natAbs < 3600 <;>
      simp [entryLines, h, List.filter_cons, ih]

/-- Length of a flat map whose function always yields singletons. -/
theorem flatMap_length_of_singletons (g : α → List β)
    (h : ∀ a, (g a).length = 1) (l : List α) :
    (l.flatMap g).length = l.length := by
  induction l with
  | nil => rfl
  | cons a r ih =>
    simp [List.flatMap_cons, h a, ih]
    omega

/-- A nonempty sub-array contributes exactly one line per entry in
`history_range` mode: no sampling stride is applied. -/
theorem itemLines_range_length (start tz : Int) (item : List HistoryEntry)
    (hne : item ≠ []) :
    (itemLines "history_range" start tz item).length = item.length := by
  cases item with
  | nil => exact absurd rfl hne
  | cons f rest =>
    show ((f :: rest).flatMap
      (entryLines f.entity_id "history_range" start tz)).length =
      (f :: rest).length
    refine flatMap_length_of_singletons _ (fun e => ?_) _
    rw [entryLines_range f.entity_id "history_range" start tz e (by decide)]
    rfl

/-- The combination logic of `_identify_entities`, characterized by the two
signals: an entity matches exactly when at least one signal is active and
every active signal fires. -/
theorem entityMatch_iff (ft fw : List String) (s : EntityState) :
    entityMatch ft fw s = true ↔
      ((ft ≠ [] ∨ fw ≠ []) ∧ (ft ≠ [] → categoryFires ft s = true) ∧
       (fw ≠ [] → lexicalFires fw s = true)) := by
  unfold entityMatch
  by_cases h1 : ft = [] <;> by_cases h2 : fw = [] <;>
    simp [h1, h2]

/-! ## Claim theorems -/

/-- C1, counterexample: `_identify_entities` applies no exclusion filter, so
an utterance word matching an `update.*` entity id puts that id in the
output. -/
theorem C1_counterexample :
    identify_entities "update_core now" [⟨"update.update_core", "on", []⟩] =
      ["update.update_core"] ∧
    strContains "update.update_core" "update" = true := by decide

/-- C1 (amended): for every utterance and snapshot the output of
`_identify_entities` contains at most 15 entity ids; no exclusion of ids
containing "update" or "device_tracker" is performed. -/
theorem C1_amended (u : String) (states : List EntityState) :
    (identify_entities u states).length ≤ 15 := by
  unfold identify_entities
  simp [List.length_take]

/-- C2, counterexample: with both a category keyword and long utterance words
present, an entity for which only the category signal fires is NOT included —
the two signals combine with AND, not OR. -/
theorem C2_counterexample :
    foundTypes "θερμοκρασια σαλονιου" ≠ [] ∧
    categoryFires (foundTypes "θερμοκρασια σαλονιου")
      ⟨"sensor.outside_temp", "20.1", [("device_class", "temperature")]⟩ =
      true ∧
    identify_entities "θερμοκρασια σαλονιου"
      [⟨"sensor.outside_temp", "20.1", [("device_class", "temperature")]⟩] =
      [] := by decide

/-- C2 (amended): the two signals combine with AND over the active ones — an
id appears in the candidate list if and only if some snapshot entity carries
it and EVERY active signal fires for that entity (category when a category
keyword occurs, lexical when a long word occurs, at least one being active),
provided the number of matching entities does not exceed 15. -/
theorem C2_amended (u : String) (states : List EntityState) (id : String)
    (hcap : (states.filter
        (entityMatch (foundTypes u) (filterWords u))).length ≤ 15) :
    id ∈ identify_entities u states ↔
      ∃ s ∈ states, s.entity_id = id ∧
        ((foundTypes u ≠ [] ∨ filterWords u ≠ []) ∧
         (foundTypes u ≠ [] → categoryFires (foundTypes u) s = true) ∧
         (filterWords u ≠ [] → lexicalFires (filterWords u) s = true)) := by
  unfold identify_entities
  rw [List.take_of_length_le (by rw [List.length_map]; exact hcap),
    List.mem_map]
  constructor
  · rintro ⟨s, hsf, rfl⟩
    rcases List.mem_filter.mp hsf with ⟨hs, hm⟩
    exact ⟨s, hs, rfl, (entityMatch_iff _ _ s).mp hm⟩
  · rintro ⟨s, hs, rfl, hsig⟩
    exact ⟨s, List.mem_filter.mpr ⟨hs, (entityMatch_iff _ _ s).mpr hsig⟩, rfl⟩

/-- C2 witness: a concrete utterance with only the category signal active,
whose entity is in the output by the right-to-left direction. -/
theorem C2_witness :
    "light.kitchen" ∈
      identify_entities "φως" [⟨"light.kitchen", "on", []⟩] :=
  (C2_amended "φως" [⟨"light.kitchen", "on", []⟩] "light.kitchen"
      (by decide)).mpr
    ⟨⟨"light.kitchen", "on", []⟩, by decide, rfl, Or.inl (by decide),
      fun _ => by decide, fun h => absurd (by decide) h⟩

/-- C3, counterexample: in `history_point` mode a record 3000 seconds
(50 minutes, i.e. more than 45 minutes) from the window start is still kept
in the digest. -/
theorem C3_counterexample :
    ((3000 : Int) - 0).natAbs > 2700 ∧
    parseHistory [[⟨"sensor.x", "20", [], 3000⟩]] "history_point" 0 0 =
      ["sensor.x at 00:50: 20"] := by decide

/-- C3 (amended): in `history_point` mode the digest keeps exactly the
records whose timestamp differs from the window start by strictly less than
3600 seconds (60 minutes, not 45). -/
theorem C3_amended (raw : List (List HistoryEntry)) (start tz : Int) :
    parseHistory raw "history_point" start tz =
      raw.flatMap (fun item =>
        match item with
        | [] => []
        | f :: _ =>
          (item.filter
              (fun e => decide ((e.last_changed - start).natAbs < 3600))).map
            (fun e => f.entity_id ++ " at " ++ fmtHM tz e.last_changed ++
              ": " ++ e.state)) := by
  unfold parseHistory
  induction raw with
  | nil => rfl
  | cons item rest ih =>
    simp only [List.flatMap_cons]
    rw [ih]
    congr 1
    cases item with
    | nil => rfl
    | cons f r =>
      show (f :: r).flatMap
        (entryLines f.entity_id "history_point" start tz) = _
      exact point_filter f.entity_id start tz (f :: r)

/-- C4, counterexample: the no-keyword default is `start = now − 24h` with
mode "recent", under which a record 12 hours from the window start is still
rendered — the default window is not POINT. -/
theorem C4_counterexample :
    detect_time_intent "hello" 0 = (-86400, "recent") ∧
    "recent" ≠ "history_point" ∧
    parseHistory [[⟨"sensor.x", "1", [], -43200⟩]] "recent" (-86400) 0 =
      ["[12:00] sensor.x=1"] := by decide

/-- C4 (amended): for every utterance containing no temporal keyword, the
resolver returns `start = now − 24h` with mode "recent", a mode under which
the summarizer renders every record (range behavior, not POINT). -/
theorem C4_amended (u : String) (now tz : Int) (eid : String)
    (e : HistoryEntry)
    (h1 : strContains (pyLower u) "χθες" = false)
    (h2 : strContains (pyLower u) "yesterday" = false)
    (h3 : strContains (pyLower u) "προχθές" = false)
    (h4 : (strContains (pyLower u) "ώρα" &&
        (strContains (pyLower u) "τελευταία" ||
         strContains (pyLower u) "last")) = false) :
    detect_time_intent u now = (now - 86400, "recent") ∧
    entryLines eid "recent" (now - 86400) tz e ≠ [] := by
  constructor
  · unfold detect_time_intent
    simp [h1, h2, h3, h4]
  · rw [entryLines_range eid "recent" (now - 86400) tz e (by decide)]
    simp

/-- C4 witness: the amended claim at the utterance "hello". -/
theorem C4_witness :
    detect_time_intent "hello" 0 = (0 - 86400, "recent") ∧
    entryLines "sensor.x" "recent" (0 - 86400) 0 ⟨"sensor.x", "1", [], 0⟩ ≠
      [] :=
  C4_amended "hello" 0 0 "sensor.x" ⟨"sensor.x", "1", [], 0⟩ (by decide)
    (by decide) (by decide) (by decide)

/-- C5, counterexample: the English "last hour" does not contain the Greek
word "ώρα" required by the rule, so the resolver falls back to the default
24-hour "recent" window instead of a RANGE window starting 1–2 hours ago. -/
theorem C5_counterexample :
    strContains (pyLower "last hour") "last" = true ∧
    detect_time_intent "last hour" 0 = (-86400, "recent") ∧
    ¬(-7200 ≤ (-86400 : Int)) := by decide

/-- C5 (amended): for every utterance containing "ώρα" together with
"τελευταία" or "last" and no higher-priority marker, the resolver returns
mode "history_range" with `start = now − 1h`, which lies within
`[now − 2h, now − 1h]`; an utterance with English "last hour" alone does not
trigger this rule. -/
theorem C5_amended (u : String) (now : Int)
    (h1 : strContains (pyLower u) "χθες" = false)
    (h2 : strContains (pyLower u) "yesterday" = false)
    (h3 : strContains (pyLower u) "προχθές" = false)
    (h4 : strContains (pyLower u) "ώρα" = true)
    (h5 : (strContains (pyLower u) "τελευταία" ||
        strContains (pyLower u) "last") = true) :
    detect_time_intent u now = (now - 3600, "history_range") ∧
    now - 7200 ≤ now - 3600 := by
  constructor
  · unfold detect_time_intent
    simp [h1, h2, h3, h4, h5]
  · omega

/-- C5 witness: the amended claim at the Greek utterance "τελευταία ώρα". -/
theorem C5_witness :
    detect_time_intent "τελευταία ώρα" 0 = (0 - 3600, "history_range") ∧
    (0 : Int) - 7200 ≤ 0 - 3600 :=
  C5_amended "τελευταία ώρα" 0 (by decide) (by decide) (by decide)
    (by decide) (by decide)

/-- C6, counterexample: a range window of more than 100 hours with 100 raw
records for one entity yields 100 parsed lines — far more than the at most 2
a per-entity stride of 50 would keep; no stride is applied. -/
theorem C6_counterexample :
    (parseHistory [(List.range 100).map (fun i =>
        ⟨"sensor.power", "x", [], Int.ofNat i * 60⟩)] "history_range"
      (-360060) 0).length = 100 ∧
    (100 : Nat) > 2 := by
  constructor
  · have hne : ((List.range 100).map (fun i =>
        (⟨"sensor.power", "x", [], Int.ofNat i * 60⟩ : HistoryEntry))) ≠
        [] := by
      intro h
      have hl := congrArg List.length h
      simp at hl
    simp only [parseHistory, List.flatMap_cons, List.flatMap_nil,
      List.append_nil]
    rw [itemLines_range_length _ _ _ hne]
    simp
  · decide

/-- C6 (amended): in range mode no sampling stride is applied — every record
of a nonempty sub-array yields one line — and the digest is bounded instead
by keeping only the last 50 rendered lines overall. -/
theorem C6_amended (start tz : Int) (f : HistoryEntry)
    (rest : List HistoryEntry) (pl : List String) :
    (itemLines "history_range" start tz (f :: rest)).length =
      rest.length + 1 ∧
    (lastN 50 pl).length ≤ 50 := by
  refine ⟨?_, lastN_length_le 50 pl⟩
  rw [itemLines_range_length start tz (f :: rest) (List.cons_ne_nil f rest)]
  rfl

/-- C7, counterexample: a kept record of a climate-domain entity is rendered
without its `hvac_action` or `current_temperature` attributes — only the bare
state appears. -/
theorem C7_counterexample :
    parseHistory [[⟨"climate.living", "heat",
        [("hvac_action", "heating"), ("current_temperature", "21.5")], 0⟩]]
      "history_range" (-3600) 0 = ["[00:00] climate.living=heat"] ∧
    strContains "[00:00] climate.living=heat" "hvac_action" = false ∧
    strContains "[00:00] climate.living=heat" "heating" = false ∧
    strContains "[00:00] climate.living=heat" "current_temperature" = false ∧
    strContains "[00:00] climate.living=heat" "21.5" = false := by decide

/-- C7 (amended): rendered digest lines are independent of a record's
attributes — no enrichment with `hvac_action` or `current_temperature` takes
place for climate (or any) entities; only timestamp, entity id and bare state
appear. -/
theorem C7_amended (eid mode : String) (start tz : Int) (id st : String)
    (t : Int) (a b : List (String × String)) :
    entryLines eid mode start tz ⟨id, st, a, t⟩ =
      entryLines eid mode start tz ⟨id, st, b, t⟩ := rfl

/-- C8: a transport failure of the primary history request yields an empty
result without raising; a 401/404 primary status causes exactly one secondary
attempt; when the secondary also fails the result is empty and the digest
built from it is the "no history data found" sentinel, not an exception. -/
theorem C8_fetch_fallback (secondary : HttpResponse) (code : Nat)
    (body : List (List HistoryEntry)) (ents : List String) (mode : String)
    (start tz : Int)
    (hcode : code = 401 ∨ code = 404)
    (hsec : ∀ b, secondary ≠ HttpResponse.response 200 b)
    (hents : ents ≠ []) :
    get_history HttpResponse.failure secondary = ([], 0) ∧
    (get_history (HttpResponse.response code body) secondary).2 = 1 ∧
    (get_history (HttpResponse.response code body) secondary).1 = [] ∧
    history_text ents
      (get_history (HttpResponse.response code body) secondary).1 mode start
      tz = sentinel := by
  have hc200 : ¬code = 200 := by rcases hcode with h | h <;> simp [h]
  have hres : get_history (HttpResponse.response code body) secondary =
      ([], 1) := by
    show (if code = 200 then (body, 0)
      else if code = 401 ∨ code = 404 then
        match secondary with
        | HttpResponse.failure => ([], 1)
        | HttpResponse.response c2 b2 => (if c2 = 200 then b2 else [], 1)
      else ([], 0)) = ([], 1)
    rw [if_neg hc200, if_pos hcode]
    cases secondary with
    | failure => rfl
    | response c2 b2 =>
      have hc2 : ¬c2 = 200 := by
        intro h
        exact hsec b2 (by rw [h])
      show ((if c2 = 200 then b2 else [], 1) :
        List (List HistoryEntry) × Nat) = ([], 1)
      rw [if_neg hc2]
  refine ⟨rfl, by rw [hres], by rw [hres], ?_⟩
  rw [hres]
  cases ents with
  | nil => exact absurd rfl hents
  | cons a l => rfl

/-- C8 witness: primary 404 and a secondary transport failure. -/
theorem C8_witness :
    get_history HttpResponse.failure HttpResponse.failure = ([], 0) ∧
    (get_history (HttpResponse.response 404 []) HttpResponse.failure).2 = 1 ∧
    (get_history (HttpResponse.response 404 []) HttpResponse.failure).1 =
      [] ∧
    history_text ["sensor.a"]
      (get_history (HttpResponse.response 404 []) HttpResponse.failure).1
      "recent" 0 0 = sentinel :=
  C8_fetch_fallback HttpResponse.failure 404 [] ["sensor.a"] "recent" 0 0
    (Or.inr rfl) (fun b h => HttpResponse.noConfusion h) (by decide)

/-- C9: when no entity was selected or no record survived the filters, the
digest is the exact sentinel "No relevant history data found." and never the
empty string. -/
theorem C9_empty_sentinel (entities : List String)
    (raw : List (List HistoryEntry)) (mode : String) (start tz : Int)
    (h : entities = [] ∨ parseHistory raw mode start tz = []) :
    history_text entities raw mode start tz = sentinel ∧
    history_text entities raw mode start tz ≠ "" := by
  have hs : sentinel ≠ "" := by decide
  have heq : history_text entities raw mode start tz = sentinel := by
    unfold history_text
    rcases h with h | h
    · rw [h]
      rfl
    · by_cases he : entities.isEmpty
      · rw [if_pos he]
      · rw [if_neg he]
        simp [h]
  exact ⟨heq, heq ▸ hs⟩

/-- C9 witness: no entity selected and no raw history. -/
theorem C9_witness :
    history_text [] [] "recent" 0 0 = sentinel ∧
    history_text [] [] "recent" 0 0 ≠ "" :=
  C9_empty_sentinel [] [] "recent" 0 0 (Or.inl rfl)

/-- C10: the user turn is recorded in memory before the context assembly and
the LLM call — the conversation context consulted by `process` already
contains it — and when the LLM call fails `process` returns the string
"Error generating response: ..." while memory holds the user turn and no new
assistant turn. -/
theorem C10_memory_error (mem : Memory) (u err : String)
    (fetch : String → String) (states : List EntityState)
    (primary secondary : HttpResponse) (now tz : Int)
    (nowStr tzName : String) :
    (process (fun _ => LLMResult.failure err) fetch mem u states primary
        secondary now tz nowStr tzName).1.msgs =
      mem.msgs ++ [("user", u)] ∧
    (process (fun _ => LLMResult.failure err) fetch mem u states primary
        secondary now tz nowStr tzName).2 =
      "Error generating response: " ++ err ∧
    ("user", u) ∈ get_context (add_message mem "user" u) 10 := by
  refine ⟨rfl, rfl, ?_⟩
  exact mem_lastN_concat 10 (by decide) mem.msgs ("user", u)
